import Mathlib

/-!
Verification of the x-bot opportunity-scoring and rate-governed posting core.

Shallow embedding of `src/tools/x-bot/src/monitor.py`, `poster.py` and the
280-character validation of `client.py`.  Python strings are modelled as Lean
`String`s (compared through their character lists), Python `float` arithmetic
as exact rationals `ℚ`, timestamps as rational epoch seconds passed in
explicitly through a `Clock` value, and the JSON state files as Lean
structures threaded through the functions.  External collaborators (the
API call of the network client, the LLM reply generator) are parameters of the
functions that call them; monitor functions are modelled on their
non-raising path (the `try`/`except` around the external search only skips a
keyword, which no claim depends on).
-/

namespace XBot

/-- Python `l[-n:]` for a fixed positive `n`: the most recent `n` entries. -/
def takeLast (n : ℕ) (l : List α) : List α := l.drop (l.length - n)

/-- Python `s.lower()` (restricted to the character-wise lowering Lean
provides, which agrees with Python on ASCII). -/
def lowerStr (s : String) : String := ⟨s.toList.map Char.toLower⟩

/-- Python `sub in s` on strings: substring containment. -/
def pyIn (sub s : String) : Bool := decide (sub.toList <:+: s.toList)

/-- The Python builtin `min(a, b)` on two numbers (kernel-reducible form). -/
def pymin (a b : ℚ) : ℚ := if b < a then b else a

/-- Python `int(q)` for rationals: truncation toward zero (T-division of the
numerator by the denominator). -/
def pyInt (q : ℚ) : ℤ := q.num.tdiv q.den

/-- Embeds `client.Tweet` (client.py:19-31): snapshot of one externally observed
message.  The engagement counters are the non-negative metrics of the API. -/
structure Tweet where
  id : String
  text : String
  author_id : String
  author_username : String
  author_followers : ℕ
  like_count : ℕ
  retweet_count : ℕ
  reply_count : ℕ
  created_at : String
  conversation_id : Option String := none
deriving Repr, DecidableEq

/-- Embeds `Monitor._calculate_relevance` (monitor.py:153-181).  The Python body
initialises `score = 0.5` and conditionally adds each bonus in sequence
(no condition reads `score`), then returns `min(1.0, score)`; it is rendered
here as `min 1` of the sum of the conditional bonuses. -/
def calculateRelevance (tweet : Tweet) (keyword : String) : ℚ :=
  pymin 1 (0.5
    + (if pyIn "?" tweet.text then 0.2 else 0)
    + (if 0 < tweet.like_count then pymin 0.1 ((tweet.like_count : ℚ) * 0.01) else 0)
    + (if 0 < tweet.reply_count then pymin 0.1 ((tweet.reply_count : ℚ) * 0.02) else 0)
    + (if 1000 < tweet.author_followers then 0.1 else 0)
    + (if 10000 < tweet.author_followers then 0.1 else 0)
    + (if pyIn (lowerStr keyword) (lowerStr tweet.text) then 0.1 else 0))

/-- The monitor settings read from the config in `Monitor.__init__`
(monitor.py:96-102). -/
structure MonitorConfig where
  blacklist : List String
  min_followers : ℕ
  min_likes : ℕ
  min_retweets : ℕ
deriving Repr, DecidableEq

/-- The dictionary stored as `opportunities` entries
(`Opportunity.to_dict`, monitor.py:30-44). -/
structure OppRecord where
  tweet_id : String
  tweet_text : String
  author : String
  author_followers : ℕ
  likes : ℕ
  retweets : ℕ
  matched_keyword : String
  suggested_calculator : String
  suggested_reply : String
  relevance_score : ℚ
  created_at : String
deriving Repr, DecidableEq

/-- Embeds `monitor.Opportunity` (monitor.py:21-28). -/
structure Opportunity where
  tweet : Tweet
  matched_keyword : String
  suggested_calculator : String
  suggested_reply : String
  relevance_score : ℚ
deriving Repr, DecidableEq

/-- Embeds `Opportunity.to_dict` (monitor.py:30-44). -/
def Opportunity.toDict (o : Opportunity) : OppRecord where
  tweet_id := o.tweet.id
  tweet_text := o.tweet.text
  author := o.tweet.author_username
  author_followers := o.tweet.author_followers
  likes := o.tweet.like_count
  retweets := o.tweet.retweet_count
  matched_keyword := o.matched_keyword
  suggested_calculator := o.suggested_calculator
  suggested_reply := o.suggested_reply
  relevance_score := o.relevance_score
  created_at := o.tweet.created_at

/-- The monitor state document `monitor_state.json`
(`Monitor._load_state`, monitor.py:121-126). -/
structure MonitorState where
  seen_tweets : List String
  replied_tweets : List String
  last_search : List (String × String)
  opportunities : List OppRecord
deriving Repr, DecidableEq

/-- Embeds `Monitor._save_state` (monitor.py:128-138): before writing, each history
list is truncated to its most recent entries (`[-500:]`, `[-200:]`,
`[-50:]`). -/
def saveState (st : MonitorState) : MonitorState :=
  { st with
    seen_tweets := takeLast 500 st.seen_tweets
    replied_tweets := takeLast 200 st.replied_tweets
    opportunities := takeLast 50 st.opportunities }

/-- Embeds `Monitor.KEYWORD_CALCULATOR_MAP` (monitor.py:51-81), in declaration
order (Python dicts preserve insertion order). -/
def keywordCalculatorMap : List (String × String) :=
  [("fire calculator", "fire-calculator"),
   ("retirement calculator", "fire-calculator"),
   ("financial independence", "fire-calculator"),
   ("compound interest", "compound-interest-calculator"),
   ("mortgage calculator", "mortgage-calculator"),
   ("home loan", "mortgage-calculator"),
   ("tip calculator", "tip-calculator"),
   ("split the bill", "tip-calculator"),
   ("how much paint", "paint-calculator"),
   ("paint calculator", "paint-calculator"),
   ("bmi calculator", "bmi-calculator"),
   ("body mass index", "bmi-calculator"),
   ("uk tax trap", "uk-100k-tax-trap-calculator"),
   ("100k tax", "uk-100k-tax-trap-calculator"),
   ("student loan calculator", "uk-student-loan-calculator"),
   ("student loan repayment", "uk-student-loan-calculator"),
   ("baby cost", "baby-cost-calculator"),
   ("how much does a baby cost", "baby-cost-calculator"),
   ("wedding alcohol", "wedding-alcohol-calculator"),
   ("how much alcohol wedding", "wedding-alcohol-calculator"),
   ("bbq calculator", "bbq-calculator"),
   ("how much meat bbq", "bbq-calculator"),
   ("freelance rate", "freelance-day-rate-calculator"),
   ("day rate", "freelance-day-rate-calculator"),
   ("calorie calculator", "calorie-calculator"),
   ("tdee calculator", "calorie-calculator"),
   ("debt payoff", "debt-payoff-calculator"),
   ("snowball vs avalanche", "debt-payoff-calculator"),
   ("side hustle profit", "side-hustle-calculator")]

/-- The partial-match loop of `Monitor._get_calculator_for_keyword`
(monitor.py:146-149): first entry where either side contains the other. -/
def firstPartialMatch (kl : String) : List (String × String) → Option String
  | [] => none
  | (kw, cal) :: rest =>
    if pyIn kw kl || pyIn kl kw then some cal else firstPartialMatch kl rest

/-- Embeds `Monitor._get_calculator_for_keyword` (monitor.py:140-151). -/
def getCalculatorForKeyword (keyword : String) : Option String :=
  match keywordCalculatorMap.lookup (lowerStr keyword) with
  | some cal => some cal
  | none => firstPartialMatch (lowerStr keyword) keywordCalculatorMap

/-- Embeds `Monitor._is_valid_opportunity` (monitor.py:183-205).  The rejection
reason is returned structurally; the payloads mirror the numbers
interpolated into the Python reason strings. -/
inductive RejectReason where
  | alreadySeen
  | alreadyReplied
  | blacklistedAuthor
  | tooFewFollowers (n : ℕ)
  | tooFewLikes (n : ℕ)
  | tooFewRetweets (n : ℕ)
  | ok
deriving Repr, DecidableEq

def isValidOpportunity (cfg : MonitorConfig) (st : MonitorState) (tweet : Tweet) :
    Bool × RejectReason :=
  if tweet.id ∈ st.seen_tweets then (false, .alreadySeen)
  else if tweet.id ∈ st.replied_tweets then (false, .alreadyReplied)
  else if lowerStr tweet.author_username ∈ cfg.blacklist.map lowerStr then
    (false, .blacklistedAuthor)
  else if tweet.author_followers < cfg.min_followers then
    (false, .tooFewFollowers tweet.author_followers)
  else if tweet.like_count < cfg.min_likes then
    (false, .tooFewLikes tweet.like_count)
  else if tweet.retweet_count < cfg.min_retweets then
    (false, .tooFewRetweets tweet.retweet_count)
  else (true, .ok)

/-- The stable Python `list.sort(key=lambda x: x.relevance_score, reverse=True)`
(monitor.py:270): stable insertion sort, descending by score; an element is
inserted after every already-placed element of score `≥` its own. -/
def insertByScore (x : Opportunity) : List Opportunity → List Opportunity
  | [] => [x]
  | y :: ys =>
    if x.relevance_score ≤ y.relevance_score then y :: insertByScore x ys
    else x :: y :: ys

def sortByScoreDesc (l : List Opportunity) : List Opportunity :=
  l.foldl (fun acc x => insertByScore x acc) []

/-- Python `d[k] = v` on the `last_search` dict (monitor.py:263). -/
def setAssoc (l : List (String × String)) (k v : String) : List (String × String) :=
  if l.any (fun p => p.1 == k) then
    l.map (fun p => if p.1 == k then (k, v) else p)
  else l ++ [(k, v)]

/-- The inner loop of `Monitor.search_opportunities` over
`tweets[:max_per_keyword]` (monitor.py:235-260): filter against the current
state, build the opportunity, and append the tweet id to `seen_tweets`. -/
def processTweets (cfg : MonitorConfig) (keyword calculator : String)
    (genReply : String → String → String) :
    MonitorState → List Tweet → MonitorState × List Opportunity
  | st, [] => (st, [])
  | st, t :: ts =>
    if (isValidOpportunity cfg st t).1 then
      let opp : Opportunity :=
        { tweet := t
          matched_keyword := keyword
          suggested_calculator := calculator
          suggested_reply := genReply t.text calculator
          relevance_score := calculateRelevance t keyword }
      let r := processTweets cfg keyword calculator genReply
        { st with seen_tweets := st.seen_tweets ++ [t.id] } ts
      (r.1, opp :: r.2)
    else processTweets cfg keyword calculator genReply st ts

/-- The outer loop of `Monitor.search_opportunities` over keywords
(monitor.py:221-267).  `search` stands for `client.search_recent` and
`genReply` for `generator.generate_reply`, both external collaborators;
`nowIso` is the timestamp string recorded into `last_search`. -/
def processKeywords (cfg : MonitorConfig) (maxPerKeyword : ℕ)
    (search : String → List Tweet) (genReply : String → String → String)
    (nowIso : String) :
    MonitorState → List String → MonitorState × List Opportunity
  | st, [] => (st, [])
  | st, k :: ks =>
    match getCalculatorForKeyword k with
    | none => processKeywords cfg maxPerKeyword search genReply nowIso st ks
    | some calculator =>
      let r := processTweets cfg k calculator genReply st ((search k).take maxPerKeyword)
      let r' := processKeywords cfg maxPerKeyword search genReply nowIso
        { r.1 with last_search := setAssoc r.1.last_search k nowIso } ks
      (r'.1, r.2 ++ r'.2)

/-- Embeds `Monitor.search_opportunities` (monitor.py:207-277): run the keyword
loop, sort the collected opportunities by descending relevance, replace the
stored `opportunities` with their dict forms, and save (truncating). -/
def searchOpportunities (cfg : MonitorConfig) (st : MonitorState)
    (keywords : List String) (maxPerKeyword : ℕ)
    (search : String → List Tweet) (genReply : String → String → String)
    (nowIso : String) : MonitorState × List Opportunity :=
  let r := processKeywords cfg maxPerKeyword search genReply nowIso st keywords
  let sorted := sortByScoreDesc r.2
  (saveState { r.1 with opportunities := sorted.map Opportunity.toDict }, sorted)

/-- Embeds `Monitor.mark_replied` (monitor.py:279-282). -/
def markReplied (st : MonitorState) (tweet_id : String) : MonitorState :=
  saveState { st with replied_tweets := st.replied_tweets ++ [tweet_id] }

/-- Embeds `Monitor.get_pending_opportunities` (monitor.py:284-290). -/
def getPendingOpportunities (st : MonitorState) : List OppRecord :=
  st.opportunities.filter (fun o => !(st.replied_tweets.contains o.tweet_id))

/-! Section: Poster (`poster.py`) -/

/-- The poster settings read from the config in `Poster.__init__`
(poster.py:36-43).  `schedule` is loaded but not consulted by any posting
decision in `poster.py`. -/
structure PosterConfig where
  min_hours_between : ℚ
  schedule : List String
  days : List ℕ
  max_posts_per_day : ℕ
deriving Repr, DecidableEq

/-- One entry of the bounded `history` list (poster.py:157-162). -/
structure HistoryEntry where
  tweet_id : String
  text : String
  calculator : Option String
  posted_at : ℚ
deriving Repr, DecidableEq

/-- The poster state document `poster_state.json`
(`Poster._load_state`, poster.py:59-65).  Timestamps (ISO strings in the
file) are modelled as rational epoch seconds. -/
structure PosterState where
  last_post_time : Option ℚ
  posts_today : ℕ
  today_date : Option String
  posted_calculators : List String
  history : List HistoryEntry
deriving Repr, DecidableEq

/-- The ambient `datetime.now()`, pre-split into the three projections the
poster uses: epoch seconds, the `"%Y-%m-%d"` date string, and `weekday()`. -/
structure Clock where
  nowSeconds : ℚ
  todayDate : String
  weekday : ℕ
deriving Repr, DecidableEq

/-- Embeds `Poster._reset_daily_counters` (poster.py:73-80): on a date change,
reset `posts_today` and `posted_calculators` (and save). -/
def resetDailyCounters (st : PosterState) (c : Clock) : PosterState :=
  if st.today_date = some c.todayDate then st
  else { st with
          today_date := some c.todayDate
          posts_today := 0
          posted_calculators := [] }

/-- The outcome of `Poster.can_post` (poster.py:82-109), structurally: the
payloads mirror the numbers interpolated into the Python reason strings. -/
inductive PostBlockReason where
  | dailyLimit (maxPosts : ℕ)
  | tooSoon (waitMinutes : ℤ)
  | notPostingDay (weekday : ℕ)
  | ok
deriving Repr, DecidableEq

/-- Embeds `Poster.can_post` (poster.py:82-109).  It first runs the daily rollover
(which mutates the persisted state), so the possibly-updated state is
returned alongside the decision.  `wait_mins = int((min_hours_between -
hours_since) * 60)` uses Python `int`, i.e. truncation toward zero. -/
def canPost (cfg : PosterConfig) (st : PosterState) (c : Clock) :
    PosterState × Bool × PostBlockReason :=
  let st := resetDailyCounters st c
  if cfg.max_posts_per_day ≤ st.posts_today then
    (st, false, .dailyLimit cfg.max_posts_per_day)
  else
    let afterSpacing : PosterState × Bool × PostBlockReason :=
      if c.weekday ∈ cfg.days then (st, true, .ok)
      else (st, false, .notPostingDay c.weekday)
    match st.last_post_time with
    | some last =>
      let hoursSince := (c.nowSeconds - last) / 3600
      if hoursSince < cfg.min_hours_between then
        (st, false, .tooSoon (pyInt ((cfg.min_hours_between - hoursSince) * 60)))
      else afterSpacing
    | none => afterSpacing

/-- Embeds `generator.GeneratedTweet` (generator.py:24-31), restricted to the two
fields `Poster.post_tweet` reads. -/
structure GeneratedTweet where
  text : String
  calculator_slug : String
deriving Repr, DecidableEq

/-- The failure modes of `XClient.post_tweet` (client.py:82-112): the
pre-network length validation, or whatever the API call raises. -/
inductive ClientError where
  | tooLong (chars : ℕ)
  | apiError (msg : String)
deriving Repr, DecidableEq

/-- Embeds `XClient.post_tweet` (client.py:82-112): reject text over 280 characters
before any network call, otherwise forward the API outcome (`apiOutcome`
stands for the external `create_tweet` round-trip, returning the new tweet
id or raising). -/
def clientPostTweet (text : String) (apiOutcome : Except String String) :
    Except ClientError String :=
  if 280 < text.length then .error (.tooLong text.length)
  else
    match apiOutcome with
    | .ok id => .ok id
    | .error e => .error (.apiError e)

/-- The human-readable `"error"` value of a failure dict: either the quota
reason from `can_post` or the message of the caught client exception. -/
inductive PostError where
  | quota (reason : PostBlockReason)
  | client (e : ClientError)
deriving Repr, DecidableEq

/-- The dict returned by `Poster.post_tweet` / `Poster.post_reply`:
`{"success": True, ...}` or `{"success": False, "error": ...}`. -/
inductive PostResult where
  | success (tweet_id : String) (text : String)
  | failure (error : PostError)
deriving Repr, DecidableEq

/-- Embeds `Poster.post_tweet` (poster.py:111-178) on the explicit-content paths
(`tweet=...` or `text=...`; when both are `None` the source first asks the
generator for a tweet, which this model receives pre-computed as
`generated`).  Quota blocks return a failure dict; the client call is inside
`try`, so a `ClientError` also returns a failure dict; only on success are
`last_post_time`, `posts_today`, `posted_calculators` and the 100-bounded
`history` updated. -/
def postTweet (cfg : PosterConfig) (st : PosterState) (c : Clock)
    (tweet? : Option GeneratedTweet) (text? : Option String)
    (generated : GeneratedTweet) (force : Bool)
    (apiOutcome : Except String String) : PostResult × PosterState :=
  let q := if force then (st, true, PostBlockReason.ok) else canPost cfg st c
  let st₁ := q.1
  if !q.2.1 then (.failure (.quota q.2.2), st₁)
  else
    let resolved : String × Option String :=
      match tweet?, text? with
      | some t, _ => (t.text, some t.calculator_slug)
      | none, some s => (s, none)
      | none, none => (generated.text, some generated.calculator_slug)
    let tweet_text := resolved.1
    let calculator_slug := resolved.2
    match clientPostTweet tweet_text apiOutcome with
    | .error e => (.failure (.client e), st₁)
    | .ok id =>
      let entry : HistoryEntry :=
        { tweet_id := id
          text := tweet_text
          calculator := calculator_slug
          posted_at := c.nowSeconds }
      let st₂ :=
        { st₁ with
          last_post_time := some c.nowSeconds
          posts_today := st₁.posts_today + 1
          posted_calculators :=
            match calculator_slug with
            | some slug => st₁.posted_calculators ++ [slug]
            | none => st₁.posted_calculators
          history := takeLast 100 (st₁.history ++ [entry]) }
      (.success id tweet_text, st₂)

/-- Embeds `Poster.post_reply` (poster.py:180-215): same quota gate and `try` as
`post_tweet`, but on success only `last_post_time` and `posts_today` are
updated (no history entry, no posted-calculators entry). -/
def postReply (cfg : PosterConfig) (st : PosterState) (c : Clock)
    (reply_to_id : String) (text : String) (force : Bool)
    (apiOutcome : Except String String) : PostResult × PosterState :=
  let q := if force then (st, true, PostBlockReason.ok) else canPost cfg st c
  let st₁ := q.1
  if !q.2.1 then (.failure (.quota q.2.2), st₁)
  else
    match clientPostTweet text apiOutcome with
    | .error e => (.failure (.client e), st₁)
    | .ok id =>
      let st₂ :=
        { st₁ with
          last_post_time := some c.nowSeconds
          posts_today := st₁.posts_today + 1 }
      (.success id text, st₂)

/-! Section: Concrete inputs used by witnesses and counterexamples -/

/-- A baseline admissible tweet. -/
def tweetA : Tweet :=
  { id := "t100"
    text := "How do I pick a mortgage?"
    author_id := "a1"
    author_username := "alice"
    author_followers := 50
    like_count := 0
    retweet_count := 0
    reply_count := 0
    created_at := "2025-01-01T10:00:00" }

/-- A quiet tweet hitting none of the scorer bonuses. -/
def tweetQuiet : Tweet :=
  { tweetA with text := "thinking about home loans today", author_followers := 0 }

/-- The default monitor configuration (monitor.py:99-102) with a one-entry
blacklist. -/
def cfgA : MonitorConfig :=
  { blacklist := ["SpamCo"], min_followers := 10, min_likes := 0, min_retweets := 0 }

/-- An empty monitor state (`Monitor._load_state` default, monitor.py:121-126). -/
def emptyMonitorState : MonitorState :=
  { seen_tweets := [], replied_tweets := [], last_search := [], opportunities := [] }

/-- A state in which `tweetA.id` is both seen and replied. -/
def stSeenAndReplied : MonitorState :=
  { emptyMonitorState with seen_tweets := ["t100"], replied_tweets := ["t100"] }

/-- A state in which the id "t666" is replied but not seen. -/
def stRepliedOnly : MonitorState :=
  { emptyMonitorState with replied_tweets := ["t666"] }

/-- A replied, blacklisted, low-engagement tweet. -/
def tweetBad : Tweet :=
  { tweetA with id := "t666", author_username := "SpamCo", author_followers := 0 }

/-- The default poster configuration (poster.py:38-43). -/
def cfgP : PosterConfig :=
  { min_hours_between := 4
    schedule := ["09:00", "14:00", "19:00"]
    days := [0, 1, 2, 3, 4]
    max_posts_per_day := 10 }

/-- Quota state whose last post was at epoch second 0. -/
def stPosted : PosterState :=
  { last_post_time := some 0
    posts_today := 1
    today_date := some "2025-01-06"
    posted_calculators := ["bmi-calculator"]
    history := [] }

/-- A clock one hour after the last post of `stPosted`, on the same Monday. -/
def clock1h : Clock :=
  { nowSeconds := 3600, todayDate := "2025-01-06", weekday := 0 }

/-- A clock 3630 seconds (1 hour and 30 seconds) after the last post of `stPosted`. -/
def clock3630 : Clock :=
  { nowSeconds := 3630, todayDate := "2025-01-06", weekday := 0 }

/-- Quota state carrying a stale day marker ("yesterday") and 5 posts. -/
def stStale : PosterState :=
  { last_post_time := none
    posts_today := 5
    today_date := some "2025-01-04"
    posted_calculators := ["bmi-calculator"]
    history := [] }

/-- A Sunday (weekday 6, not an allowed posting day) on a new date. -/
def clockSunday : Clock :=
  { nowSeconds := 100000, todayDate := "2025-01-05", weekday := 6 }

/-- The poster configuration with a daily limit of one post. -/
def cfgMax1 : PosterConfig := { cfgP with max_posts_per_day := 1 }

/-- Five hundred distinct seen-message ids. -/
def seen500 : List String := (List.range 500).map (fun n => toString n)

/-- A monitor state whose seen-history is exactly at the retention bound. -/
def stSeen500 : MonitorState := { emptyMonitorState with seen_tweets := seen500 }

/-- A 300-character tweet text (over the 280 limit). -/
def longText : String := ⟨List.replicate 300 'x'⟩

/-- A pre-generated tweet, standing for the generator output. -/
def gW : GeneratedTweet := { text := "generated", calculator_slug := "fire-calculator" }

/-- A tweet from the blacklisted author. -/
def tweetSpam : Tweet := { tweetA with id := "t200", author_username := "SpamCo" }

/-- A search collaborator returning one admissible and one blacklisted tweet. -/
def searchW : String → List Tweet := fun _ => [tweetA, tweetSpam]

/-- A reply generator returning a fixed text. -/
def genW : String → String → String := fun _ _ => "try this"

/-- The opportunity built from `tweetA` for "mortgage calculator". -/
def oppW : Opportunity :=
  { tweet := tweetA
    matched_keyword := "mortgage calculator"
    suggested_calculator := "mortgage-calculator"
    suggested_reply := "try this"
    relevance_score := calculateRelevance tweetA "mortgage calculator" }

/-- A stored opportunity record for a tweet never replied to. -/
def oppRecX : OppRecord :=
  { tweet_id := "t900"
    tweet_text := "old text"
    author := "alice"
    author_followers := 50
    likes := 0
    retweets := 0
    matched_keyword := "home loan"
    suggested_calculator := "mortgage-calculator"
    suggested_reply := "r"
    relevance_score := 0.5
    created_at := "2025-01-01" }

/-- A monitor state holding one persisted opportunity. -/
def stWithOpp : MonitorState := { emptyMonitorState with opportunities := [oppRecX] }

/-! Section: General lemmas -/

theorem takeLast_nil (n : ℕ) : takeLast n ([] : List α) = [] := by
  simp [takeLast]

theorem length_takeLast (n : ℕ) (l : List α) : (takeLast n l).length ≤ n := by
  simp [takeLast]; omega

theorem takeLast_suffix (n : ℕ) (l : List α) : (takeLast n l).IsSuffix l :=
  List.drop_suffix _ _

theorem takeLast_of_length_le {n : ℕ} {l : List α} (h : l.length ≤ n) :
    takeLast n l = l := by
  simp [takeLast, Nat.sub_eq_zero_of_le h]

theorem takeLast_append_singleton_of_length {l : List α} {n : ℕ} (x : α)
    (h : l.length = n + 1) : takeLast (n + 1) (l ++ [x]) = l.drop 1 ++ [x] := by
  simp [takeLast, h, List.drop_append_of_le_length]

theorem getLast_mem_takeLast {n : ℕ} (hn : 0 < n) (l : List α) (x : α) :
    x ∈ takeLast n (l ++ [x]) := by
  unfold takeLast
  rw [List.drop_append_of_le_length (by simp; omega)]
  simp

theorem pymin_eq_min (a b : ℚ) : pymin a b = min a b := by
  simp only [pymin, min_def]
  rcases lt_trichotomy a b with h | h | h
  · rw [if_neg (not_lt.mpr h.le), if_pos h.le]
  · simp [h]
  · rw [if_pos h, if_neg (not_le.mpr h)]

theorem pymin_le_left (a b : ℚ) : pymin a b ≤ a := by
  rw [pymin_eq_min]; exact min_le_left a b

theorem le_pymin {a b c : ℚ} (h₁ : c ≤ a) (h₂ : c ≤ b) : c ≤ pymin a b := by
  rw [pymin_eq_min]; exact le_min h₁ h₂

theorem pymin_mono_right {a b b' : ℚ} (h : b ≤ b') : pymin a b ≤ pymin a b' := by
  rw [pymin_eq_min, pymin_eq_min]; exact min_le_min le_rfl h

theorem ite_bonus_nonneg {p : Prop} [Decidable p] {c : ℚ} (hc : 0 ≤ c) :
    0 ≤ if p then c else 0 := by
  split <;> simp [hc]

/-- The capped engagement bonus `if n > 0 then min cap (n * coef) else 0` is
non-negative and monotone in `n`. -/
theorem engagement_bonus_nonneg (cap coef : ℚ) (hcap : 0 ≤ cap) (hcoef : 0 ≤ coef)
    (n : ℕ) : 0 ≤ if 0 < n then pymin cap ((n : ℚ) * coef) else 0 := by
  split
  · exact le_pymin hcap (by positivity)
  · exact le_rfl

theorem engagement_bonus_mono (cap coef : ℚ) (hcap : 0 ≤ cap) (hcoef : 0 ≤ coef)
    {n n' : ℕ} (h : n ≤ n') :
    (if 0 < n then pymin cap ((n : ℚ) * coef) else 0)
      ≤ (if 0 < n' then pymin cap ((n' : ℚ) * coef) else 0) := by
  rcases Nat.eq_zero_or_pos n with hn | hn
  · rw [hn, if_neg (by omega)]
    exact engagement_bonus_nonneg cap coef hcap hcoef n'
  · rw [if_pos hn, if_pos (by omega)]
    exact pymin_mono_right (by
      have : (n : ℚ) ≤ (n' : ℚ) := by exact_mod_cast h
      exact mul_le_mul_of_nonneg_right this hcoef)

/-- The fixed follower bonus `if T < n then c else 0` is monotone in `n`. -/
theorem threshold_bonus_mono (c : ℚ) (hc : 0 ≤ c) (T : ℕ) {n n' : ℕ} (h : n ≤ n') :
    (if T < n then c else 0) ≤ (if T < n' then c else 0) := by
  split
  · rw [if_pos (by omega)]
  · exact ite_bonus_nonneg hc

/-! Section: Claims about the relevance scorer -/

theorem calculateRelevance_ge_base (t : Tweet) (k : String) :
    0.5 ≤ calculateRelevance t k := by
  unfold calculateRelevance
  refine le_pymin (by norm_num) ?_
  have h1 : (0:ℚ) ≤ if pyIn "?" t.text then 0.2 else 0 := ite_bonus_nonneg (by norm_num)
  have h2 := engagement_bonus_nonneg 0.1 0.01 (by norm_num) (by norm_num) t.like_count
  have h3 := engagement_bonus_nonneg 0.1 0.02 (by norm_num) (by norm_num) t.reply_count
  have h4 : (0:ℚ) ≤ if 1000 < t.author_followers then 0.1 else 0 :=
    ite_bonus_nonneg (by norm_num)
  have h5 : (0:ℚ) ≤ if 10000 < t.author_followers then 0.1 else 0 :=
    ite_bonus_nonneg (by norm_num)
  have h6 : (0:ℚ) ≤ if pyIn (lowerStr k) (lowerStr t.text) then 0.1 else 0 :=
    ite_bonus_nonneg (by norm_num)
  linarith

theorem calculateRelevance_le_one (t : Tweet) (k : String) :
    calculateRelevance t k ≤ 1 := by
  unfold calculateRelevance
  exact pymin_le_left _ _

/-- Claim C10: for every message and matched keyword the relevance score lies
in `[0.5, 1]`: the base score is `0.5`, every adjustment is non-negative,
and the final `min` clamps at `1`. -/
theorem relevance_score_range (t : Tweet) (k : String) :
    0.5 ≤ calculateRelevance t k ∧ calculateRelevance t k ≤ 1 :=
  ⟨calculateRelevance_ge_base t k, calculateRelevance_le_one t k⟩

/-- Claim C6: with zero likes, replies and followers, no question mark, and no
case-insensitive keyword occurrence, the score is exactly `0.5` (and the
scorer is a pure function of its two inputs, so scoring is deterministic by
construction). -/
theorem relevance_base_score (t : Tweet) (k : String)
    (hl : t.like_count = 0) (hr : t.reply_count = 0)
    (hf : t.author_followers = 0)
    (hq : pyIn "?" t.text = false)
    (hk : pyIn (lowerStr k) (lowerStr t.text) = false) :
    calculateRelevance t k = 0.5 := by
  unfold calculateRelevance
  rw [hl, hr, hf, hq, hk]
  norm_num [pymin]

theorem relevance_base_score_witness :
    tweetQuiet.like_count = 0 ∧ tweetQuiet.reply_count = 0 ∧
    tweetQuiet.author_followers = 0 ∧
    pyIn "?" tweetQuiet.text = false ∧
    pyIn (lowerStr "fire calculator") (lowerStr tweetQuiet.text) = false ∧
    calculateRelevance tweetQuiet "fire calculator" = 0.5 :=
  ⟨by decide, by decide, by decide, by decide, by decide,
   relevance_base_score tweetQuiet "fire calculator"
     (by decide) (by decide) (by decide) (by decide) (by decide)⟩

/-- Claim C5: the relevance score is monotone (non-decreasing) in
`like_count`, `reply_count` and `author_followers` separately, and never
exceeds `1`, whatever the magnitudes. -/
theorem relevance_monotone_bounded :
    (∀ (t : Tweet) (k : String) (a a' : ℕ), a ≤ a' →
      calculateRelevance { t with like_count := a } k
        ≤ calculateRelevance { t with like_count := a' } k)
    ∧ (∀ (t : Tweet) (k : String) (a a' : ℕ), a ≤ a' →
      calculateRelevance { t with reply_count := a } k
        ≤ calculateRelevance { t with reply_count := a' } k)
    ∧ (∀ (t : Tweet) (k : String) (a a' : ℕ), a ≤ a' →
      calculateRelevance { t with author_followers := a } k
        ≤ calculateRelevance { t with author_followers := a' } k)
    ∧ (∀ (t : Tweet) (k : String), calculateRelevance t k ≤ 1) := by
  refine ⟨?_, ?_, ?_, fun t k => calculateRelevance_le_one t k⟩
  · intro t k a a' h
    unfold calculateRelevance
    apply pymin_mono_right
    have := engagement_bonus_mono 0.1 0.01 (by norm_num) (by norm_num) h
    dsimp only
    linarith
  · intro t k a a' h
    unfold calculateRelevance
    apply pymin_mono_right
    have := engagement_bonus_mono 0.1 0.02 (by norm_num) (by norm_num) h
    dsimp only
    linarith
  · intro t k a a' h
    unfold calculateRelevance
    apply pymin_mono_right
    have h1 := threshold_bonus_mono (0.1 : ℚ) (by norm_num) 1000 h
    have h2 := threshold_bonus_mono (0.1 : ℚ) (by norm_num) 10000 h
    dsimp only
    linarith

theorem relevance_monotone_bounded_witness :
    ((3 : ℕ) ≤ 7 ∧
      calculateRelevance { tweetA with like_count := 3 } "mortgage calculator"
        ≤ calculateRelevance { tweetA with like_count := 7 } "mortgage calculator") ∧
    calculateRelevance { tweetA with like_count := 10000 } "mortgage calculator" ≤ 1 :=
  ⟨⟨by norm_num,
    relevance_monotone_bounded.1 tweetA "mortgage calculator" 3 7 (by norm_num)⟩,
   relevance_monotone_bounded.2.2.2 { tweetA with like_count := 10000 }
     "mortgage calculator"⟩

/-! Section: Claims about the candidate filter -/

/-- Claim C1, counterexample: a message id present in both the seen and the
replied set is rejected as "Already seen", not "Already replied": the code
checks `seen_tweets` first (monitor.py:186-189), so the replied check is
not evaluated first as claimed. -/
theorem filter_order_counterexample :
    tweetA.id ∈ stSeenAndReplied.replied_tweets ∧
    isValidOpportunity cfgA stSeenAndReplied tweetA = (false, .alreadySeen) ∧
    RejectReason.alreadySeen ≠ RejectReason.alreadyReplied :=
  ⟨by decide, by decide, by decide⟩

/-- Claim C1, amended: the seen check runs first; for a message id in the
replied set but not in the seen set the filter rejects with
"Already replied", before (and regardless of) the blacklist and the
engagement thresholds. -/
theorem filter_replied_rejected_after_seen (cfg : MonitorConfig) (st : MonitorState)
    (t : Tweet) (hrep : t.id ∈ st.replied_tweets) (hseen : t.id ∉ st.seen_tweets) :
    isValidOpportunity cfg st t = (false, .alreadyReplied) := by
  unfold isValidOpportunity
  rw [if_neg hseen, if_pos hrep]

theorem filter_replied_rejected_after_seen_witness :
    tweetBad.id ∈ stRepliedOnly.replied_tweets ∧
    tweetBad.id ∉ stRepliedOnly.seen_tweets ∧
    lowerStr tweetBad.author_username ∈ cfgA.blacklist.map lowerStr ∧
    tweetBad.author_followers < cfgA.min_followers ∧
    isValidOpportunity cfgA stRepliedOnly tweetBad = (false, .alreadyReplied) :=
  ⟨by decide, by decide, by decide, by decide,
   filter_replied_rejected_after_seen cfgA stRepliedOnly tweetBad (by decide) (by decide)⟩

/-! Section: Claims about the quota checker -/

theorem pyInt_eq_floor {q : ℚ} (h : 0 ≤ q) : pyInt q = ⌊q⌋ := by
  unfold pyInt
  rw [Int.tdiv_eq_ediv (Rat.num_nonneg.mpr h) (by positivity), Rat.floor_def]

/-- Helper: the `too_soon` branch of `can_post`, fully characterised. -/
theorem canPost_tooSoon_eq {cfg : PosterConfig} {st : PosterState} {c : Clock}
    {last : ℚ}
    (hday : st.today_date = some c.todayDate)
    (hlimit : st.posts_today < cfg.max_posts_per_day)
    (hlast : st.last_post_time = some last)
    (hsoon : (c.nowSeconds - last) / 3600 < cfg.min_hours_between) :
    canPost cfg st c =
      (st, false,
        .tooSoon (pyInt ((cfg.min_hours_between - (c.nowSeconds - last) / 3600) * 60))) := by
  unfold canPost resetDailyCounters
  rw [if_pos hday, if_neg (not_le.mpr hlimit), hlast]
  exact if_pos hsoon

/-- Claim C2, amended: with the day marker current, the daily limit not
reached, a recorded last post, and less than `min_hours_between_posts`
elapsed, `can_post` blocks with `too_soon` and
`wait_minutes = int((min_hours_between_posts - hours_since) * 60)`, which is
the *floor* (Python `int` truncation of a positive value), not the ceiling,
of the remaining minutes; when the remaining time is a whole number of
minutes — as in the 1-hour example of the spec, giving 180 — floor and ceiling
agree. -/
theorem canPost_too_soon_wait_floor (cfg : PosterConfig) (st : PosterState) (c : Clock)
    (last : ℚ)
    (hday : st.today_date = some c.todayDate)
    (hlimit : st.posts_today < cfg.max_posts_per_day)
    (hlast : st.last_post_time = some last)
    (hsoon : (c.nowSeconds - last) / 3600 < cfg.min_hours_between) :
    canPost cfg st c =
      (st, false,
        .tooSoon (pyInt ((cfg.min_hours_between - (c.nowSeconds - last) / 3600) * 60)))
    ∧ pyInt ((cfg.min_hours_between - (c.nowSeconds - last) / 3600) * 60)
        = ⌊(cfg.min_hours_between - (c.nowSeconds - last) / 3600) * 60⌋ :=
  ⟨canPost_tooSoon_eq hday hlimit hlast hsoon,
   pyInt_eq_floor (mul_nonneg (sub_pos.mpr hsoon).le (by norm_num))⟩

theorem canPost_too_soon_wait_floor_witness :
    stPosted.today_date = some clock1h.todayDate ∧
    stPosted.posts_today < cfgP.max_posts_per_day ∧
    stPosted.last_post_time = some 0 ∧
    (clock1h.nowSeconds - 0) / 3600 < cfgP.min_hours_between ∧
    canPost cfgP stPosted clock1h = (stPosted, false, .tooSoon 180) := by
  have hsoon : (clock1h.nowSeconds - 0) / 3600 < cfgP.min_hours_between := by
    norm_num [clock1h, cfgP]
  have h := (canPost_too_soon_wait_floor cfgP stPosted clock1h 0 rfl (by decide) rfl hsoon).1
  have harg : (cfgP.min_hours_between - (clock1h.nowSeconds - 0) / 3600) * 60 = (180 : ℚ) := by
    norm_num [clock1h, cfgP]
  have hwait : pyInt ((cfgP.min_hours_between - (clock1h.nowSeconds - 0) / 3600) * 60) = 180 := by
    rw [harg, pyInt_eq_floor (by norm_num)]
    norm_num
  rw [hwait] at h
  exact ⟨rfl, by decide, rfl, hsoon, h⟩

/-- Claim C2, counterexample: 3630 seconds (1 h 30 s) after the last post with
`min_hours_between_posts = 4`, the remaining time is 179.5 minutes; the code
reports `wait_minutes = 179` (truncation), while the claimed formula
`ceil((min_hours_between_posts - hours_since) * 60)` gives 180. -/
theorem canPost_wait_ceil_counterexample :
    canPost cfgP stPosted clock3630 = (stPosted, false, .tooSoon 179) ∧
    ⌈(cfgP.min_hours_between - (clock3630.nowSeconds - 0) / 3600) * 60⌉ = (180 : ℤ) ∧
    (179 : ℤ) ≠ 180 := by
  have harg : (cfgP.min_hours_between - (clock3630.nowSeconds - 0) / 3600) * 60
      = (359 / 2 : ℚ) := by
    norm_num [clock3630, cfgP]
  have hsoon : (clock3630.nowSeconds - 0) / 3600 < cfgP.min_hours_between := by
    norm_num [clock3630, cfgP]
  refine ⟨?_, ?_, by decide⟩
  · have h := @canPost_tooSoon_eq cfgP stPosted clock3630 0
      rfl (by decide) rfl hsoon
    have hwait : pyInt ((cfgP.min_hours_between - (clock3630.nowSeconds - 0) / 3600) * 60)
        = 179 := by
      rw [harg, pyInt_eq_floor (by norm_num)]
      norm_num
    rw [hwait] at h
    exact h
  · rw [harg, Int.ceil_eq_iff]
    constructor <;> norm_num

theorem resetDailyCounters_idem (st : PosterState) (c : Clock) :
    resetDailyCounters (resetDailyCounters st c) c = resetDailyCounters st c := by
  unfold resetDailyCounters
  by_cases h : st.today_date = some c.todayDate <;> simp [h]

theorem resetDailyCounters_last_post_time (st : PosterState) (c : Clock) :
    (resetDailyCounters st c).last_post_time = st.last_post_time := by
  unfold resetDailyCounters; split <;> rfl

theorem resetDailyCounters_history (st : PosterState) (c : Clock) :
    (resetDailyCounters st c).history = st.history := by
  unfold resetDailyCounters; split <;> rfl

theorem resetDailyCounters_of_stale {st : PosterState} {c : Clock}
    (h : st.today_date ≠ some c.todayDate) :
    resetDailyCounters st c
      = { st with
          today_date := some c.todayDate
          posts_today := 0
          posted_calculators := [] } := by
  unfold resetDailyCounters; rw [if_neg h]

/-- Embeds `can_post` evaluates the state after the rollover. -/
theorem canPost_reset (cfg : PosterConfig) (st : PosterState) (c : Clock) :
    canPost cfg st c = canPost cfg (resetDailyCounters st c) c := by
  conv_lhs => rw [canPost]
  conv_rhs => rw [canPost]
  rw [resetDailyCounters_idem]

/-- Claim C3: on a stale day marker `can_post` first resets `posts_today` and
the per-day posted-content list, before the daily-limit check; a stale state
is therefore never blocked by the daily limit (for a positive limit), and
the remaining conditions are evaluated in the fixed order daily limit →
minimum spacing → allowed weekday, the first blocking condition winning. -/
theorem canPost_rollover_and_order (cfg : PosterConfig) (st : PosterState) (c : Clock) :
    (st.today_date ≠ some c.todayDate →
      (resetDailyCounters st c).posts_today = 0
      ∧ (resetDailyCounters st c).posted_calculators = []
      ∧ canPost cfg st c = canPost cfg (resetDailyCounters st c) c)
    ∧ (st.today_date ≠ some c.todayDate → 0 < cfg.max_posts_per_day →
        ∀ m : ℕ, (canPost cfg st c).2.2 ≠ .dailyLimit m)
    ∧ (cfg.max_posts_per_day ≤ (resetDailyCounters st c).posts_today →
        (canPost cfg st c).2.2 = .dailyLimit cfg.max_posts_per_day)
    ∧ (∀ last : ℚ, (resetDailyCounters st c).posts_today < cfg.max_posts_per_day →
        st.last_post_time = some last →
        (c.nowSeconds - last) / 3600 < cfg.min_hours_between →
        (canPost cfg st c).2.2
          = .tooSoon (pyInt ((cfg.min_hours_between - (c.nowSeconds - last) / 3600) * 60)))
    ∧ ((resetDailyCounters st c).posts_today < cfg.max_posts_per_day →
        (∀ last : ℚ, st.last_post_time = some last →
          ¬ (c.nowSeconds - last) / 3600 < cfg.min_hours_between) →
        c.weekday ∉ cfg.days →
        (canPost cfg st c).2.2 = .notPostingDay c.weekday) := by
  refine ⟨?_, ?_, ?_, ?_, ?_⟩
  · intro hstale
    rw [resetDailyCounters_of_stale hstale]
    exact ⟨rfl, rfl, by rw [← resetDailyCounters_of_stale hstale, canPost_reset]⟩
  · intro hstale hmax m
    unfold canPost
    rw [resetDailyCounters_of_stale hstale]
    rw [if_neg (by omega : ¬ cfg.max_posts_per_day ≤ 0)]
    rcases hl : st.last_post_time with _ | last
    all_goals repeat' split
    all_goals try simp
    all_goals split <;> simp
  · intro hlim
    unfold canPost
    rw [if_pos hlim]
  · intro last hlim hlast hsoon
    unfold canPost
    rw [if_neg (not_le.mpr hlim), resetDailyCounters_last_post_time, hlast]
    simp [hsoon]
  · intro hlim hfar hday
    unfold canPost
    rw [if_neg (not_le.mpr hlim), resetDailyCounters_last_post_time]
    rcases hl : st.last_post_time with _ | last
    · simp [hday]
    · simp [hfar last hl, hday]

theorem canPost_rollover_and_order_witness :
    (stStale.today_date ≠ some clockSunday.todayDate
      ∧ (resetDailyCounters stStale clockSunday).posts_today = 0
      ∧ (resetDailyCounters stStale clockSunday).posted_calculators = []
      ∧ stStale.posts_today = 5
      ∧ (canPost cfgP stStale clockSunday).2.2 ≠ .dailyLimit cfgP.max_posts_per_day)
    ∧ (cfgMax1.max_posts_per_day ≤ (resetDailyCounters stPosted clock1h).posts_today
      ∧ (canPost cfgMax1 stPosted clock1h).2.2 = .dailyLimit cfgMax1.max_posts_per_day)
    ∧ ((resetDailyCounters stPosted clock1h).posts_today < cfgP.max_posts_per_day
      ∧ (clock1h.nowSeconds - 0) / 3600 < cfgP.min_hours_between
      ∧ (canPost cfgP stPosted clock1h).2.2
          = .tooSoon (pyInt ((cfgP.min_hours_between
              - (clock1h.nowSeconds - 0) / 3600) * 60)))
    ∧ ((canPost cfgP stStale clockSunday).2.2 = .notPostingDay clockSunday.weekday) := by
  have hstale : stStale.today_date ≠ some clockSunday.todayDate := by decide
  have hsoon : (clock1h.nowSeconds - 0) / 3600 < cfgP.min_hours_between := by
    norm_num [clock1h, cfgP]
  refine ⟨⟨hstale, ((canPost_rollover_and_order cfgP stStale clockSunday).1 hstale).1,
      ((canPost_rollover_and_order cfgP stStale clockSunday).1 hstale).2.1,
      by decide,
      (canPost_rollover_and_order cfgP stStale clockSunday).2.1 hstale (by decide) _⟩,
    ⟨by decide, (canPost_rollover_and_order cfgMax1 stPosted clock1h).2.2.1 (by decide)⟩,
    ⟨by decide, hsoon,
      (canPost_rollover_and_order cfgP stPosted clock1h).2.2.2.1 0 (by decide) rfl hsoon⟩,
    (canPost_rollover_and_order cfgP stStale clockSunday).2.2.2.2 (by decide)
      (by intro last h; simp [stStale] at h) (by decide)⟩

/-! Section: Claims about retention -/

/-- All branches of `can_post` return the state produced by the rollover. -/
theorem canPost_fst (cfg : PosterConfig) (st : PosterState) (c : Clock) :
    (canPost cfg st c).1 = resetDailyCounters st c := by
  simp only [canPost]
  repeat' split
  all_goals rfl

/-- The state examined by the quota gate of `post_tweet`/`post_reply` keeps
the pre-call history. -/
theorem quota_gate_history (cfg : PosterConfig) (st : PosterState) (c : Clock)
    (force : Bool) :
    (if force then (st, true, PostBlockReason.ok) else canPost cfg st c).1.history
      = st.history := by
  cases force
  · simp [canPost_fst, resetDailyCounters_history]
  · rfl

/-- Claim C7: after every monitor state save the seen history holds at most
500 ids, the replied history at most 200, the stored opportunities at most
50, each a suffix (the most recent entries) of what was appended; the post
history is either untouched (failure) or the most recent 100 entries
including the new one; and saving a 501st seen id keeps exactly 500, drops
the oldest, and keeps the newest. -/
theorem retention_bounds (st : MonitorState) :
    ((saveState st).seen_tweets.length ≤ 500
      ∧ (saveState st).replied_tweets.length ≤ 200
      ∧ (saveState st).opportunities.length ≤ 50
      ∧ (saveState st).seen_tweets.IsSuffix st.seen_tweets
      ∧ (saveState st).replied_tweets.IsSuffix st.replied_tweets
      ∧ (saveState st).opportunities.IsSuffix st.opportunities)
    ∧ (∀ (cfg : PosterConfig) (pst : PosterState) (c : Clock)
        (tweet? : Option GeneratedTweet) (text? : Option String)
        (g : GeneratedTweet) (force : Bool) (api : Except String String),
        (postTweet cfg pst c tweet? text? g force api).2.history = pst.history
        ∨ ∃ e, (postTweet cfg pst c tweet? text? g force api).2.history
              = takeLast 100 (pst.history ++ [e])
            ∧ (postTweet cfg pst c tweet? text? g force api).2.history.length ≤ 100
            ∧ e ∈ (postTweet cfg pst c tweet? text? g force api).2.history)
    ∧ (st.seen_tweets.length = 500 →
        ∀ x : String,
          (saveState { st with seen_tweets := st.seen_tweets ++ [x] }).seen_tweets
            = st.seen_tweets.drop 1 ++ [x]
          ∧ (saveState { st with seen_tweets := st.seen_tweets ++ [x] }).seen_tweets.length
            = 500
          ∧ x ∈ (saveState { st with seen_tweets := st.seen_tweets ++ [x] }).seen_tweets) := by
  refine ⟨?_, ?_, ?_⟩
  · simp only [saveState]
    exact ⟨length_takeLast _ _, length_takeLast _ _, length_takeLast _ _,
      takeLast_suffix _ _, takeLast_suffix _ _, takeLast_suffix _ _⟩
  · intro cfg pst c tweet? text? g force api
    rcases htt : (match tweet?, text? with
      | some t, _ => (t.text, some t.calculator_slug)
      | none, some s => (s, none)
      | none, none => (g.text, some g.calculator_slug) : String × Option String)
      with ⟨tt, cs⟩
    cases force
    · have h1 : (canPost cfg pst c).1.history = pst.history := by
        rw [canPost_fst, resetDailyCounters_history]
      rcases hq : canPost cfg pst c with ⟨st1, ok, reason⟩
      rw [hq] at h1
      cases ok
      · left
        simp [postTweet, hq, htt]
        exact h1
      · rcases hcl : clientPostTweet tt api with e | id
        · left
          simp [postTweet, hq, htt, hcl]
          exact h1
        · right
          simp only [postTweet, hq, htt, hcl, Bool.not_true, Bool.false_eq_true,
            if_false, ite_false]
          refine ⟨_, ?_, length_takeLast _ _, @getLast_mem_takeLast _ 100 (by norm_num) _ _⟩
          rw [h1]
    · rcases hcl : clientPostTweet tt api with e | id
      · left
        simp [postTweet, htt, hcl]
      · right
        simp only [postTweet, htt, hcl, Bool.not_true, Bool.false_eq_true,
          if_false, ite_false]
        exact ⟨_, rfl, length_takeLast _ _, @getLast_mem_takeLast _ 100 (by norm_num) _ _⟩
  · intro h x
    have hdrop : takeLast 500 (st.seen_tweets ++ [x]) = st.seen_tweets.drop 1 ++ [x] := by
      simpa using takeLast_append_singleton_of_length x (by omega : st.seen_tweets.length = 499 + 1)
    simp only [saveState]
    refine ⟨hdrop, ?_, ?_⟩
    · rw [hdrop]
      simp [h]
    · exact @getLast_mem_takeLast _ 500 (by norm_num) _ _

theorem retention_bounds_witness :
    stSeen500.seen_tweets.length = 500
    ∧ ((saveState { stSeen500 with seen_tweets := stSeen500.seen_tweets ++ ["new"] }).seen_tweets
        = stSeen500.seen_tweets.drop 1 ++ ["new"]
      ∧ (saveState { stSeen500 with
          seen_tweets := stSeen500.seen_tweets ++ ["new"] }).seen_tweets.length = 500
      ∧ "new" ∈ (saveState { stSeen500 with
          seen_tweets := stSeen500.seen_tweets ++ ["new"] }).seen_tweets) :=
  ⟨by simp [stSeen500, emptyMonitorState, seen500],
   (retention_bounds stSeen500).2.2
     (by simp [stSeen500, emptyMonitorState, seen500]) "new"⟩

/-! Section: Claims about post/reply error handling -/

/-- Claim C8, counterexample: with a stale day marker and `posts_today = 5`, a
blocked post attempt (not a posting day) returns a failure result but the
returned quota state has `posts_today = 0`: the daily rollover inside
`can_post` mutates (and saves) the quota state even though the operation
fails, so the state is not left unchanged on every failure. -/
theorem post_failure_state_counterexample :
    stStale.posts_today = 5
    ∧ (postTweet cfgP stStale clockSunday none (some "hello") gW false (.ok "id1")).1
        = .failure (.quota (.notPostingDay 6))
    ∧ (postTweet cfgP stStale clockSunday none (some "hello") gW false
        (.ok "id1")).2.posts_today = 0
    ∧ (5 : ℕ) ≠ 0 :=
  ⟨by decide, by decide, by decide, by decide⟩

/-- Claim C8, amended: `post_tweet`/`post_reply` always return a tagged
result: a quota block comes back as a failure carrying the blocking reason,
the over-280 validation error comes back as a failure (not raised), and on
any failure the resulting quota state is exactly the input state after the
daily rollover — so `last_post_time` and `history` are unchanged, and
`posts_today`/`posted_calculators` change only by the rollover reset (with
`force` the state is fully unchanged). -/
theorem post_failure_semantics (cfg : PosterConfig) (st : PosterState) (c : Clock) :
    (∀ (tweet? : Option GeneratedTweet) (text? : Option String) (g : GeneratedTweet)
        (api : Except String String),
      (canPost cfg st c).2.1 = false →
      postTweet cfg st c tweet? text? g false api
        = (.failure (.quota (canPost cfg st c).2.2), resetDailyCounters st c))
    ∧ (∀ (s : String) (g : GeneratedTweet) (api : Except String String),
        280 < s.length → (canPost cfg st c).2.1 = true →
        postTweet cfg st c none (some s) g false api
          = (.failure (.client (.tooLong s.length)), resetDailyCounters st c))
    ∧ (∀ (s : String) (g : GeneratedTweet) (api : Except String String),
        280 < s.length →
        postTweet cfg st c none (some s) g true api
          = (.failure (.client (.tooLong s.length)), st))
    ∧ (∀ (tweet? : Option GeneratedTweet) (text? : Option String) (g : GeneratedTweet)
        (force : Bool) (api : Except String String) (err : PostError) (st' : PosterState),
        postTweet cfg st c tweet? text? g force api = (.failure err, st') →
        st' = (if force then st else resetDailyCounters st c))
    ∧ (∀ (rid s : String) (force : Bool) (api : Except String String)
        (err : PostError) (st' : PosterState),
        postReply cfg st c rid s force api = (.failure err, st') →
        st' = (if force then st else resetDailyCounters st c)) := by
  have hfst := canPost_fst cfg st c
  refine ⟨?_, ?_, ?_, ?_, ?_⟩
  · intro tweet? text? g api hblocked
    rcases hq : canPost cfg st c with ⟨st1, ok, r⟩
    rw [hq] at hfst hblocked
    simp only at hblocked hfst
    subst hblocked
    simp [postTweet, hq, hfst]
  · intro s g api hlen hok
    rcases hq : canPost cfg st c with ⟨st1, ok, r⟩
    rw [hq] at hfst hok
    simp only at hok hfst
    subst hok
    simp [postTweet, hq, hfst, clientPostTweet, hlen]
  · intro s g api hlen
    simp [postTweet, clientPostTweet, hlen]
  · intro tweet? text? g force api err st'
    rcases htt : (match tweet?, text? with
      | some t, _ => (t.text, some t.calculator_slug)
      | none, some s => (s, none)
      | none, none => (g.text, some g.calculator_slug) : String × Option String)
      with ⟨tt, cs⟩
    intro heq
    cases force
    · rcases hq : canPost cfg st c with ⟨st1, ok, r⟩
      rw [hq] at hfst
      simp only at hfst
      cases ok
      · simp only [postTweet, hq, htt, Bool.not_false, if_true, Prod.ext_iff] at heq
        simp [← heq.2, hfst]
      · rcases hcl : clientPostTweet tt api with e | id
        · simp only [postTweet, hq, htt, hcl, Bool.not_true, Bool.false_eq_true,
            if_false, Prod.ext_iff] at heq
          simp [← heq.2, hfst]
        · simp [postTweet, hq, htt, hcl, Prod.ext_iff] at heq
    · rcases hcl : clientPostTweet tt api with e | id
      · simp only [postTweet, htt, hcl, Bool.not_true, Bool.false_eq_true,
          if_false, Prod.ext_iff] at heq
        simp [← heq.2]
      · simp [postTweet, htt, hcl, Prod.ext_iff] at heq
  · intro rid s force api err st' heq
    cases force
    · rcases hq : canPost cfg st c with ⟨st1, ok, r⟩
      rw [hq] at hfst
      simp only at hfst
      cases ok
      · simp only [postReply, hq, Bool.not_false, if_true, Prod.ext_iff] at heq
        simp [← heq.2, hfst]
      · rcases hcl : clientPostTweet s api with e | id
        · simp only [postReply, hq, hcl, Bool.not_true, Bool.false_eq_true,
            if_false, Prod.ext_iff] at heq
          simp [← heq.2, hfst]
        · simp [postReply, hq, hcl, Prod.ext_iff] at heq
    · rcases hcl : clientPostTweet s api with e | id
      · simp only [postReply, hcl, Bool.not_true, Bool.false_eq_true,
          if_false, Prod.ext_iff] at heq
        simp [← heq.2]
      · simp [postReply, hcl, Prod.ext_iff] at heq

theorem post_failure_semantics_witness :
    ((canPost cfgP stStale clockSunday).2.1 = false
      ∧ postTweet cfgP stStale clockSunday none (some "hello") gW false (.ok "id1")
          = (.failure (.quota (canPost cfgP stStale clockSunday).2.2),
             resetDailyCounters stStale clockSunday))
    ∧ (280 < longText.length
      ∧ postTweet cfgP stStale clockSunday none (some longText) gW true (.ok "id2")
          = (.failure (.client (.tooLong longText.length)), stStale))
    ∧ (postReply cfgP stStale clockSunday "t1" "hi" false (.ok "id3")
          = (.failure (.quota (.notPostingDay 6)), resetDailyCounters stStale clockSunday)
      ∧ resetDailyCounters stStale clockSunday
          = (if false then stStale else resetDailyCounters stStale clockSunday)) :=
  ⟨⟨by decide,
    (post_failure_semantics cfgP stStale clockSunday).1 none (some "hello") gW
      (.ok "id1") (by decide)⟩,
   ⟨by norm_num [longText, String.length],
    (post_failure_semantics cfgP stStale clockSunday).2.2.1 longText gW
      (.ok "id2") (by norm_num [longText, String.length])⟩,
   ⟨by decide,
    (post_failure_semantics cfgP stStale clockSunday).2.2.2.2 "t1" "hi" false
      (.ok "id3") (.quota (.notPostingDay 6)) (resetDailyCounters stStale clockSunday)
      (by decide)⟩⟩

/-! Section: Claims about the opportunity store -/

theorem mem_insertByScore (a x : Opportunity) (l : List Opportunity) :
    a ∈ insertByScore x l ↔ a = x ∨ a ∈ l := by
  induction l with
  | nil => simp [insertByScore]
  | cons y ys ih =>
    unfold insertByScore
    split
    · simp only [List.mem_cons, ih]
      try tauto
    · simp only [List.mem_cons]
      try tauto

theorem mem_sortByScoreDesc (a : Opportunity) (l : List Opportunity) :
    a ∈ sortByScoreDesc l ↔ a ∈ l := by
  suffices h : ∀ acc, a ∈ l.foldl (fun acc x => insertByScore x acc) acc
      ↔ a ∈ acc ∨ a ∈ l by
    simpa [sortByScoreDesc] using h []
  induction l with
  | nil => simp
  | cons y ys ih =>
    intro acc
    simp only [List.foldl_cons, ih, mem_insertByScore, List.mem_cons]
    tauto

/-- An admitted tweet passed the blacklist check. -/
theorem isValid_not_blacklisted {cfg : MonitorConfig} {st : MonitorState} {t : Tweet}
    (h : (isValidOpportunity cfg st t).1 = true) :
    lowerStr t.author_username ∉ cfg.blacklist.map lowerStr := by
  unfold isValidOpportunity at h
  split_ifs at h with h1 h2 h3 h4 h5 h6 <;> first | exact h3 | simp at h

theorem processTweets_not_blacklisted (cfg : MonitorConfig) (k cal : String)
    (g : String → String → String) :
    ∀ (ts : List Tweet) (st : MonitorState) (o : Opportunity),
      o ∈ (processTweets cfg k cal g st ts).2 →
      lowerStr o.tweet.author_username ∉ cfg.blacklist.map lowerStr := by
  intro ts
  induction ts with
  | nil => intro st o h; simp [processTweets] at h
  | cons t ts ih =>
    intro st o h
    unfold processTweets at h
    by_cases hv : (isValidOpportunity cfg st t).1 = true
    · rw [if_pos hv] at h
      simp only [List.mem_cons] at h
      rcases h with h | h
      · subst h
        exact isValid_not_blacklisted hv
      · exact ih _ _ h
    · rw [if_neg hv] at h
      exact ih _ _ h

theorem processKeywords_not_blacklisted (cfg : MonitorConfig) (m : ℕ)
    (f : String → List Tweet) (g : String → String → String) (n : String) :
    ∀ (ks : List String) (st : MonitorState) (o : Opportunity),
      o ∈ (processKeywords cfg m f g n st ks).2 →
      lowerStr o.tweet.author_username ∉ cfg.blacklist.map lowerStr := by
  intro ks
  induction ks with
  | nil => intro st o h; simp [processKeywords] at h
  | cons k ks ih =>
    intro st o h
    unfold processKeywords at h
    rcases hc : getCalculatorForKeyword k with _ | cal
    · rw [hc] at h
      exact ih _ _ h
    · rw [hc] at h
      simp only [List.mem_append] at h
      rcases h with h | h
      · exact processTweets_not_blacklisted cfg k cal g _ _ _ h
      · exact ih _ _ h

/-- Claim C4, counterexample: a persisted opportunity whose message id was
never replied, and with the store far below the retention bound, is gone
after the next `search_opportunities` call (here: a run over no keywords):
the call replaces the stored list wholesale. -/
theorem opportunity_store_counterexample :
    stWithOpp.opportunities = [oppRecX]
    ∧ oppRecX.tweet_id ∉ stWithOpp.replied_tweets
    ∧ stWithOpp.opportunities.length ≤ 50
    ∧ (searchOpportunities cfgA stWithOpp [] 5 searchW genW "now").1.opportunities = [] := by
  refine ⟨rfl, by decide, by simp [stWithOpp, emptyMonitorState], ?_⟩
  simp [searchOpportunities, processKeywords, sortByScoreDesc, saveState, takeLast]

/-- Claim C4, amended: the store is *replaced* on every search: after
`search_opportunities` the stored list is exactly the (truncated to 50)
dict forms of the results of that run, independent of what was stored before;
`mark_replied` does not remove stored records (it only truncates to the
retention bound); so an opportunity persists only until the next search,
not until replied. -/
theorem opportunity_store_replaced :
    (∀ (cfg : MonitorConfig) (st : MonitorState) (ks : List String) (m : ℕ)
        (f : String → List Tweet) (g : String → String → String) (n : String),
      (searchOpportunities cfg st ks m f g n).1.opportunities
        = takeLast 50 ((searchOpportunities cfg st ks m f g n).2.map Opportunity.toDict))
    ∧ (∀ (st : MonitorState) (tid : String),
        (markReplied st tid).opportunities = takeLast 50 st.opportunities) := by
  constructor
  · intro cfg st ks m f g n
    simp [searchOpportunities, saveState]
  · intro st tid
    simp [markReplied, saveState]

/-- Claim C9: `get_pending_opportunities` returns exactly the stored records
whose tweet id is not in the replied list; every record stored by a search
passed the admission filter, so no blacklisted author is ever stored (hence
never pending); and after `mark_replied id` no pending record has that id. -/
theorem pending_opportunities_spec :
    (∀ (st : MonitorState) (o : OppRecord),
      o ∈ getPendingOpportunities st
        ↔ o ∈ st.opportunities ∧ o.tweet_id ∉ st.replied_tweets)
    ∧ (∀ (cfg : MonitorConfig) (st : MonitorState) (ks : List String) (m : ℕ)
        (f : String → List Tweet) (g : String → String → String) (n : String)
        (o : OppRecord),
        o ∈ (searchOpportunities cfg st ks m f g n).1.opportunities →
        lowerStr o.author ∉ cfg.blacklist.map lowerStr)
    ∧ (∀ (st : MonitorState) (tid : String) (o : OppRecord),
        o ∈ getPendingOpportunities (markReplied st tid) → o.tweet_id ≠ tid) := by
  have hpend : ∀ (st : MonitorState) (o : OppRecord),
      o ∈ getPendingOpportunities st
        ↔ o ∈ st.opportunities ∧ o.tweet_id ∉ st.replied_tweets := by
    intro st o
    simp [getPendingOpportunities, List.mem_filter]
  refine ⟨hpend, ?_, ?_⟩
  · intro cfg st ks m f g n o h
    simp only [searchOpportunities, saveState] at h
    have h1 : o ∈ (sortByScoreDesc
        (processKeywords cfg m f g n st ks).2).map Opportunity.toDict :=
      (takeLast_suffix _ _).subset h
    rcases List.mem_map.mp h1 with ⟨op, hop, rfl⟩
    rw [mem_sortByScoreDesc] at hop
    exact processKeywords_not_blacklisted cfg m f g n ks st op hop
  · intro st tid o h
    rw [hpend] at h
    intro hid
    apply h.2
    rw [hid]
    show tid ∈ (markReplied st tid).replied_tweets
    simp only [markReplied, saveState]
    exact @getLast_mem_takeLast _ 200 (by norm_num) _ _

theorem pending_opportunities_spec_witness :
    (oppRecX ∈ getPendingOpportunities stWithOpp
      ∧ oppRecX ∈ stWithOpp.opportunities
      ∧ oppRecX.tweet_id ∉ stWithOpp.replied_tweets)
    ∧ (oppW.toDict ∈ (searchOpportunities cfgA emptyMonitorState ["mortgage calculator"] 5
          searchW genW "now").1.opportunities
      ∧ lowerStr oppW.toDict.author ∉ cfgA.blacklist.map lowerStr)
    ∧ (oppRecX ∈ getPendingOpportunities (markReplied stWithOpp "tOther")
      ∧ oppRecX.tweet_id ≠ "tOther") := by
  have hcal : getCalculatorForKeyword "mortgage calculator" = some "mortgage-calculator" := by
    decide
  have hm2 : oppW.toDict ∈ (searchOpportunities cfgA emptyMonitorState
      ["mortgage calculator"] 5 searchW genW "now").1.opportunities := by
    simp +decide [searchOpportunities, processKeywords, processTweets, hcal, searchW,
      genW, sortByScoreDesc, insertByScore, saveState, takeLast, setAssoc, oppW,
      Opportunity.toDict, emptyMonitorState]
  have hm3 : oppRecX ∈ getPendingOpportunities (markReplied stWithOpp "tOther") := by
    simp +decide [getPendingOpportunities, markReplied, saveState, takeLast, stWithOpp,
      emptyMonitorState]
  refine ⟨⟨(pending_opportunities_spec.1 stWithOpp oppRecX).mpr
      ⟨by simp [stWithOpp], by decide⟩, by simp [stWithOpp], by decide⟩,
    ⟨hm2, pending_opportunities_spec.2.1 cfgA emptyMonitorState _ 5 searchW genW "now" _ hm2⟩,
    ⟨hm3, pending_opportunities_spec.2.2 stWithOpp "tOther" oppRecX hm3⟩⟩

end XBot
